import Mathlib

/-!
# Verification of the video-analysis job orchestrator

Shallow embedding of the motion-detector service's core:
* `VideoStatus`, `VideoAnalysis` — the data model from `app/models.py`;
* `process_video_analysis` — the background orchestration run from
  `app/main.py` (lines 42–121), with the Prometheus metric helpers of
  `app/metrics.py` folded into a `Metrics` record;
* `VideoAnalyzer.detect_motion` — the detector from
  `app/services/video_analyzer.py`.

Fallible external calls (database commits, `os.remove`, the final queue
count, the detector) are driven by an explicit `Env` of injected
outcomes, so that theorems quantify over every failure combination the
code can encounter.  A failed commit poisons the SQLAlchemy session:
every later query/commit on the same session raises until `rollback()`
is called, which this code never does.
-/

namespace MotionDetector

/-- `VideoStatus` enum from `app/models.py`. -/
inductive VideoStatus where
  | pending
  | processing
  | completed
  | failed
deriving DecidableEq, Repr

/-- A row of the `video_analysis` table (`VideoAnalysis` in
`app/models.py`).  Identifiers and timestamps are modelled as natural
numbers; nullable columns are `Option`s. -/
structure VideoAnalysis where
  id : Nat
  filename : String
  upload_time : Nat
  analysis_time : Option Nat := none
  has_motion : Option Bool := none
  processing_duration_ms : Option Nat := none
  status : VideoStatus := .pending
  error_message : Option String := none
deriving DecidableEq, Repr

/-- The Prometheus metric state from `app/metrics.py`:
`video_processed_total` (a counter per label, of which the orchestrator
only ever touches `completed` and `failed`),
`video_processing_duration_seconds` (the list of observed values, in
seconds, as exact rationals), `video_errors_total` and the
`videos_in_queue` gauge. -/
structure Metrics where
  processedCompleted : Nat
  processedFailed : Nat
  errorsTotal : Nat
  durations : List ℚ
  queueGauge : Nat
deriving DecidableEq, Repr

/-- Outcomes of the fallible external calls made during one run:
which `db.commit()` raises, whether `os.remove` raises, whether the
final queue-count query raises, the result of
`analyzer.detect_motion(video_path)` (`.error` = the call raised), and
the value `datetime.utcnow()` returns at the completion write. -/
structure Env where
  commitProcessingFails : Bool
  commitResultFails : Bool
  commitFailedFails : Bool
  removeFails : Bool
  countFails : Bool
  detector : Except String (Bool × Nat)
  now : Nat
deriving Repr

/-- Observable events of one run, in chronological order: a successful
`db.commit()` persisting the record with the given status, and the call
into the detector. -/
inductive Ev where
  | persistStatus (st : VideoStatus)
  | detectorCall
deriving DecidableEq, Repr

/-- Final state of one orchestration run: the persisted table, whether
the temporary artifact file still exists, the metric state, and the
event log. -/
structure RunOutcome where
  store : List VideoAnalysis
  artifactExists : Bool
  metrics : Metrics
  events : List Ev
deriving DecidableEq, Repr

/-- `db.query(VideoAnalysis).filter(VideoAnalysis.id == video_id).first()`:
first row with the given id, if any. -/
def queryById (store : List VideoAnalysis) (video_id : Nat) : Option VideoAnalysis :=
  store.find? (fun r => r.id == video_id)

/-- Attribute mutation followed by a successful `db.commit()`: every row
with the given id is replaced by its update. -/
def updateRecord (store : List VideoAnalysis) (video_id : Nat)
    (f : VideoAnalysis → VideoAnalysis) : List VideoAnalysis :=
  store.map (fun r => if r.id == video_id then f r else r)

/-- `db.query(VideoAnalysis).filter(VideoAnalysis.status.in_([PENDING,
PROCESSING])).count()`. -/
def queueCount (store : List VideoAnalysis) : Nat :=
  (store.filter (fun r => r.status == .pending || r.status == .processing)).length

/-- `video_record.status = VideoStatus.PROCESSING` (`app/main.py` line 68). -/
def setProcessing (r : VideoAnalysis) : VideoAnalysis :=
  { r with status := .processing }

/-- `video_record.status = VideoStatus.FAILED;
video_record.error_message = str(e)` (`app/main.py` lines 91–92). -/
def setFailed (e : String) (r : VideoAnalysis) : VideoAnalysis :=
  { r with status := .failed, error_message := some e }

/-- The successful-result mutation (`app/main.py` lines 75–78):
`has_motion`, `processing_duration_ms`, `analysis_time = datetime.utcnow()`,
`status = COMPLETED`. -/
def setCompleted (hm : Bool) (ms t : Nat) (r : VideoAnalysis) : VideoAnalysis :=
  { r with
    has_motion := some hm,
    processing_duration_ms := some ms,
    analysis_time := some t,
    status := .completed }

/-- `increment_video_processed(VideoStatus.FAILED.value)` followed by
`increment_video_errors()` (`app/main.py` lines 100–101). -/
def bumpFailed (m : Metrics) : Metrics :=
  { m with
    processedFailed := m.processedFailed + 1,
    errorsTotal := m.errorsTotal + 1 }

/-- `increment_video_processed(VideoStatus.COMPLETED.value)` followed by
`observe_processing_duration(processing_duration_ms / 1000.0)`
(`app/main.py` lines 82–83). -/
def bumpCompleted (ms : Nat) (m : Metrics) : Metrics :=
  { m with
    processedCompleted := m.processedCompleted + 1,
    durations := m.durations ++ [(ms : ℚ) / 1000] }

/-- `set_videos_in_queue(pending_count)` (`app/main.py` line 115). -/
def setGauge (store : List VideoAnalysis) (m : Metrics) : Metrics :=
  { m with queueGauge := queueCount store }

/-- The `except Exception as e` branch of `process_video_analysis`
(`app/main.py` lines 85–101): best-effort re-query and persist of the
`FAILED` status — on a poisoned session the re-query raises and is
swallowed by the inner `except`, as is a failing commit — then the
`failed` processed-counter and the error counter are incremented.
Returns (session poisoned?, store, metrics, events). -/
def exceptBranch (video_id : Nat) (env : Env) (e : String) (poisoned : Bool)
    (store : List VideoAnalysis) (m : Metrics) (events : List Ev) :
    Bool × List VideoAnalysis × Metrics × List Ev :=
  let (poisoned', store', events') :=
    if poisoned then
      -- `db.query(...)` raises; caught by the inner `except`, logged only
      (true, store, events)
    else
      match queryById store video_id with
      | none => (poisoned, store, events)
      | some _ =>
        if env.commitFailedFails then
          -- the secondary persist raises; logged only, session poisoned
          (true, store, events)
        else
          (false,
           updateRecord store video_id (setFailed e),
           events ++ [.persistStatus .failed])
  (poisoned', store', bumpFailed m, events')

/-- The `finally` block of `process_video_analysis` (`app/main.py`
lines 103–118): delete the temporary artifact if it exists (a raising
`os.remove` is swallowed), then recompute the pending/processing count
and set the `videos_in_queue` gauge (a raising query — injected failure
or poisoned session — is swallowed, leaving the gauge unchanged). -/
def finallyCleanup (env : Env) (poisoned : Bool) (store : List VideoAnalysis)
    (artifact : Bool) (m : Metrics) (events : List Ev) : RunOutcome :=
  let artifact' := if artifact then (if env.removeFails then true else false) else false
  let m' :=
    if poisoned || env.countFails then m
    else setGauge store m
  { store := store, artifactExists := artifact', metrics := m', events := events }

/-- Shallow embedding of `process_video_analysis` (`app/main.py`
lines 42–121), on a fresh session (the fire-and-forget path creates its
own `SessionLocal()`).  The result is `.error e` exactly when an
exception would propagate out of the function to its caller. -/
def process_video_analysis (video_id : Nat) (env : Env)
    (store0 : List VideoAnalysis) (artifact0 : Bool) (m0 : Metrics) :
    Except String RunOutcome :=
  match queryById store0 video_id with
  | none =>
    -- record not found: log and return; the `finally` block still runs
    .ok (finallyCleanup env false store0 artifact0 m0 [])
  | some _ =>
    -- `video_record.status = PROCESSING; db.commit()`
    if env.commitProcessingFails then
      let (p, st, m, ev) :=
        exceptBranch video_id env "commit failed" true store0 m0 []
      .ok (finallyCleanup env p st artifact0 m ev)
    else
      let store1 := updateRecord store0 video_id setProcessing
      let ev1 : List Ev := [.persistStatus .processing, .detectorCall]
      match env.detector with
      | .error e =>
        let (p, st, m, ev) := exceptBranch video_id env e false store1 m0 ev1
        .ok (finallyCleanup env p st artifact0 m ev)
      | .ok (hm, ms) =>
        -- set result fields and `db.commit()`
        if env.commitResultFails then
          let (p, st, m, ev) :=
            exceptBranch video_id env "commit failed" true store1 m0 ev1
          .ok (finallyCleanup env p st artifact0 m ev)
        else
          let store2 := updateRecord store1 video_id (setCompleted hm ms env.now)
          .ok (finallyCleanup env false store2 artifact0 (bumpCompleted ms m0)
            (ev1 ++ [.persistStatus .completed]))

/-- The sequence of persisted `status` values of the driven record over
one run: its status on entry followed by the status written by each
successful commit. -/
def statusTrace (init : VideoStatus) (events : List Ev) : List VideoStatus :=
  init :: events.filterMap (fun e =>
    match e with
    | .persistStatus st => some st
    | .detectorCall => none)

/-! ## The motion detector (`app/services/video_analyzer.py`) -/

/-- A grayscale image: a grid of pixel intensities. -/
abbrev Frame := List (List Nat)

/-- A video file as seen through `cv2.VideoCapture`: whether
`cap.isOpened()` holds, and the grayscale conversions
(`cv2.cvtColor(..., COLOR_BGR2GRAY)`) of the decodable frames, in
decode order (`cap.read()` yields them one by one, then fails). -/
structure Video where
  openOk : Bool
  frames : List Frame
deriving DecidableEq, Repr

/-- `cv2.absdiff`: pixelwise absolute difference. -/
def absdiff (a b : Frame) : Frame :=
  List.zipWith (fun ra rb => List.zipWith (fun x y => max x y - min x y) ra rb) a b

/-- `cv2.threshold(frame_diff, 30, 255, cv2.THRESH_BINARY)`: pixels
strictly above 30 become 255, the rest 0. -/
def thresholdBin (img : Frame) : Frame :=
  img.map (fun row => row.map (fun p => if 30 < p then 255 else 0))

/-- `cv2.countNonZero`. -/
def countNonZero (img : Frame) : Nat :=
  (img.flatten.filter (fun p => p ≠ 0)).length

/-- `thresh.shape[0] * thresh.shape[1]`: rows times columns (of the
first row, as OpenCV images are rectangular). -/
def totalPixels (img : Frame) : Nat :=
  img.length * (img.headD []).length

/-- The `VideoAnalyzer` service configuration (`__init__`):
`motion_threshold` defaults to 0.01 and `frame_skip` to 5. -/
structure VideoAnalyzer where
  motion_threshold : ℚ := 1 / 100
  frame_skip : Nat := 5
deriving Repr

/-- The `while True` frame loop of `detect_motion`
(`app/services/video_analyzer.py` lines 54–89): reads frames until
exhaustion, skips all but every `(frame_skip + 1)`-th, compares each
analysed frame with the previous analysed frame, and breaks early once
motion is detected and at least 10 frames have been analysed.  Returns
the final `motion_detected`. -/
def motionLoop (cfg : VideoAnalyzer) (prev_gray : Frame) (rest : List Frame)
    (frame_count frames_analyzed : Nat) (motion_detected : Bool) : Bool :=
  match rest with
  | [] => motion_detected
  | frame :: rest' =>
    let frame_count' := frame_count + 1
    if frame_count' % (cfg.frame_skip + 1) ≠ 0 then
      motionLoop cfg prev_gray rest' frame_count' frames_analyzed motion_detected
    else
      let frames_analyzed' := frames_analyzed + 1
      let gray := frame
      let thresh := thresholdBin (absdiff prev_gray gray)
      let motion_pixels := countNonZero thresh
      let total_pixels := totalPixels thresh
      let motion_ratio : ℚ :=
        if 0 < total_pixels then (motion_pixels : ℚ) / (total_pixels : ℚ) else 0
      if cfg.motion_threshold < motion_ratio then
        if 10 ≤ frames_analyzed' then true
        else motionLoop cfg gray rest' frame_count' frames_analyzed' true
      else motionLoop cfg gray rest' frame_count' frames_analyzed' motion_detected

/-- `VideoAnalyzer.detect_motion` (`app/services/video_analyzer.py`
lines 24–103): raises when the file cannot be opened or the first frame
cannot be read; otherwise runs the frame loop and returns
`(motion_detected, processing_time_ms)`.  The wall-clock measurement
`int((time.time() - start_time) * 1000)` is supplied as `elapsedMs`. -/
def VideoAnalyzer.detect_motion (cfg : VideoAnalyzer) (video : Video)
    (elapsedMs : Nat) : Except String (Bool × Nat) :=
  if !video.openOk then
    .error "cannot open video file"
  else
    match video.frames with
    | [] => .error "cannot read first frame of video"
    | prev_gray :: rest =>
      .ok (motionLoop cfg prev_gray rest 0 0 false, elapsedMs)

/-! ## Concrete fixtures -/

/-- A freshly created record, as the upload handler creates it
(`status=pending`, optional fields absent). -/
def sampleRecord : VideoAnalysis :=
  { id := 1, filename := "video.mp4", upload_time := 3 }

/-- A failure-free environment whose detector reports motion in 500 ms. -/
def happyEnv : Env :=
  { commitProcessingFails := false, commitResultFails := false,
    commitFailedFails := false, removeFails := false, countFails := false,
    detector := .ok (true, 500), now := 7 }

/-- Zeroed metric state. -/
def zeroMetrics : Metrics :=
  { processedCompleted := 0, processedFailed := 0, errorsTotal := 0,
    durations := [], queueGauge := 0 }

/-! ## Helper lemmas -/

/-- Looking up the driven id after an id-preserving update returns the
updated row. -/
theorem queryById_updateRecord (store : List VideoAnalysis) (video_id : Nat)
    (f : VideoAnalysis → VideoAnalysis) (hf : ∀ s, (f s).id = s.id) :
    queryById (updateRecord store video_id f) video_id =
      (queryById store video_id).map f := by
  induction store with
  | nil => rfl
  | cons s rest ih =>
    by_cases h : s.id = video_id
    · simp [queryById, updateRecord, List.find?, h, hf]
    · simp only [queryById, updateRecord, List.map_cons]
      rw [List.find?_cons_of_neg _ (by simp [h]), List.find?_cons_of_neg _ (by simp [h])]
      exact ih

/-- Path lemma: the record is absent (`app/main.py` lines 63–66): the
run only performs cleanup. -/
theorem run_notFound (video_id : Nat) (env : Env) (store0 : List VideoAnalysis)
    (artifact0 : Bool) (m0 : Metrics)
    (h : queryById store0 video_id = none) :
    process_video_analysis video_id env store0 artifact0 m0 =
      .ok { store := store0,
            artifactExists := artifact0 && env.removeFails,
            metrics := if env.countFails then m0 else setGauge store0 m0,
            events := [] } := by
  simp only [process_video_analysis, h, finallyCleanup, Bool.false_or]
  cases artifact0 <;> cases hrm : env.removeFails <;> cases hcf : env.countFails <;>
    simp [hrm, hcf]

/-- Path lemma: the `PROCESSING` commit raises: the session is poisoned,
the except-branch re-query raises and is swallowed, the failure metrics
are bumped, and the queue-count query raises. -/
theorem run_commitProcessingFails (video_id : Nat) (env : Env)
    (store0 : List VideoAnalysis) (artifact0 : Bool) (m0 : Metrics)
    (r : VideoAnalysis) (h : queryById store0 video_id = some r)
    (hc : env.commitProcessingFails = true) :
    process_video_analysis video_id env store0 artifact0 m0 =
      .ok { store := store0,
            artifactExists := artifact0 && env.removeFails,
            metrics := bumpFailed m0,
            events := [] } := by
  simp only [process_video_analysis, h, hc, exceptBranch, finallyCleanup, if_true,
    Bool.true_or]
  cases artifact0 <;> cases hrm : env.removeFails <;> simp [hrm]

/-- Path lemma: the detector raises and the `FAILED` persist succeeds
(`app/main.py` lines 85–101). -/
theorem run_detectorError (video_id : Nat) (env : Env)
    (store0 : List VideoAnalysis) (artifact0 : Bool) (m0 : Metrics)
    (r : VideoAnalysis) (e : String)
    (h : queryById store0 video_id = some r)
    (hc : env.commitProcessingFails = false)
    (hd : env.detector = .error e)
    (hcf : env.commitFailedFails = false) :
    process_video_analysis video_id env store0 artifact0 m0 =
      .ok { store := updateRecord (updateRecord store0 video_id setProcessing)
              video_id (setFailed e),
            artifactExists := artifact0 && env.removeFails,
            metrics :=
              if env.countFails then bumpFailed m0
              else setGauge (updateRecord (updateRecord store0 video_id setProcessing)
                video_id (setFailed e)) (bumpFailed m0),
            events := [.persistStatus .processing, .detectorCall,
              .persistStatus .failed] } := by
  have hq : queryById (updateRecord store0 video_id setProcessing) video_id =
      some (setProcessing r) := by
    rw [queryById_updateRecord store0 video_id setProcessing (fun _ => rfl), h]
    rfl
  simp only [process_video_analysis, h, hc, hd, exceptBranch, hq, hcf,
    finallyCleanup, Bool.false_eq_true, if_false, Bool.false_or]
  cases artifact0 <;> cases hrm : env.removeFails <;> cases hcn : env.countFails <;>
    simp [hrm, hcn]

/-- Path lemma: the detector raises and the secondary `FAILED` persist
raises too (`app/main.py` lines 93–95): the record stays at
`PROCESSING`, failure metrics are still bumped, the gauge is left
unchanged (poisoned session). -/
theorem run_detectorErrorPersistFails (video_id : Nat) (env : Env)
    (store0 : List VideoAnalysis) (artifact0 : Bool) (m0 : Metrics)
    (r : VideoAnalysis) (e : String)
    (h : queryById store0 video_id = some r)
    (hc : env.commitProcessingFails = false)
    (hd : env.detector = .error e)
    (hcf : env.commitFailedFails = true) :
    process_video_analysis video_id env store0 artifact0 m0 =
      .ok { store := updateRecord store0 video_id setProcessing,
            artifactExists := artifact0 && env.removeFails,
            metrics := bumpFailed m0,
            events := [.persistStatus .processing, .detectorCall] } := by
  have hq : queryById (updateRecord store0 video_id setProcessing) video_id =
      some (setProcessing r) := by
    rw [queryById_updateRecord store0 video_id setProcessing (fun _ => rfl), h]
    rfl
  simp only [process_video_analysis, h, hc, hd, exceptBranch, hq, hcf,
    finallyCleanup, Bool.false_eq_true, if_false, if_true, Bool.true_or]
  cases artifact0 <;> cases hrm : env.removeFails <;> simp [hrm]

/-- Path lemma: the detector succeeds and the result commit succeeds
(`app/main.py` lines 68–83). -/
theorem run_success (video_id : Nat) (env : Env)
    (store0 : List VideoAnalysis) (artifact0 : Bool) (m0 : Metrics)
    (r : VideoAnalysis) (hm : Bool) (ms : Nat)
    (h : queryById store0 video_id = some r)
    (hc : env.commitProcessingFails = false)
    (hd : env.detector = .ok (hm, ms))
    (hres : env.commitResultFails = false) :
    process_video_analysis video_id env store0 artifact0 m0 =
      .ok { store := updateRecord (updateRecord store0 video_id setProcessing)
              video_id (setCompleted hm ms env.now),
            artifactExists := artifact0 && env.removeFails,
            metrics :=
              if env.countFails then bumpCompleted ms m0
              else setGauge (updateRecord (updateRecord store0 video_id setProcessing)
                video_id (setCompleted hm ms env.now)) (bumpCompleted ms m0),
            events := [.persistStatus .processing, .detectorCall,
              .persistStatus .completed] } := by
  simp only [process_video_analysis, h, hc, hd, hres, finallyCleanup,
    Bool.false_eq_true, if_false, Bool.false_or]
  cases artifact0 <;> cases hrm : env.removeFails <;> cases hcn : env.countFails <;>
    simp [hrm, hcn]

/-- Path lemma: the detector succeeds but the result commit raises
(`app/main.py` line 79 failing): the record stays at `PROCESSING`, the
run is accounted as a failure, the gauge is left unchanged. -/
theorem run_resultCommitFails (video_id : Nat) (env : Env)
    (store0 : List VideoAnalysis) (artifact0 : Bool) (m0 : Metrics)
    (r : VideoAnalysis) (hm : Bool) (ms : Nat)
    (h : queryById store0 video_id = some r)
    (hc : env.commitProcessingFails = false)
    (hd : env.detector = .ok (hm, ms))
    (hres : env.commitResultFails = true) :
    process_video_analysis video_id env store0 artifact0 m0 =
      .ok { store := updateRecord store0 video_id setProcessing,
            artifactExists := artifact0 && env.removeFails,
            metrics := bumpFailed m0,
            events := [.persistStatus .processing, .detectorCall] } := by
  simp only [process_video_analysis, h, hc, hd, hres, exceptBranch, if_true,
    finallyCleanup, Bool.false_eq_true, if_false, Bool.true_or]
  cases artifact0 <;> cases hrm : env.removeFails <;> simp [hrm]

/-- Exhaustive characterization of a run on a present record: exactly
one of the four outcome shapes occurs (the `PROCESSING`-commit-failure
path; the detector-failure path with persisted `FAILED`; the two paths
that leave the record at `PROCESSING` — secondary persist failure or
result commit failure; the success path). -/
theorem run_found_cases (video_id : Nat) (env : Env) (store0 : List VideoAnalysis)
    (artifact0 : Bool) (m0 : Metrics) (r : VideoAnalysis)
    (h : queryById store0 video_id = some r) :
    process_video_analysis video_id env store0 artifact0 m0 =
        .ok { store := store0,
              artifactExists := artifact0 && env.removeFails,
              metrics := bumpFailed m0,
              events := [] } ∨
    (∃ e, process_video_analysis video_id env store0 artifact0 m0 =
        .ok { store := updateRecord (updateRecord store0 video_id setProcessing)
                video_id (setFailed e),
              artifactExists := artifact0 && env.removeFails,
              metrics := if env.countFails then bumpFailed m0
                else setGauge (updateRecord (updateRecord store0 video_id setProcessing)
                  video_id (setFailed e)) (bumpFailed m0),
              events := [.persistStatus .processing, .detectorCall,
                .persistStatus .failed] }) ∨
    process_video_analysis video_id env store0 artifact0 m0 =
        .ok { store := updateRecord store0 video_id setProcessing,
              artifactExists := artifact0 && env.removeFails,
              metrics := bumpFailed m0,
              events := [.persistStatus .processing, .detectorCall] } ∨
    (∃ hm ms, process_video_analysis video_id env store0 artifact0 m0 =
        .ok { store := updateRecord (updateRecord store0 video_id setProcessing)
                video_id (setCompleted hm ms env.now),
              artifactExists := artifact0 && env.removeFails,
              metrics := if env.countFails then bumpCompleted ms m0
                else setGauge (updateRecord (updateRecord store0 video_id setProcessing)
                  video_id (setCompleted hm ms env.now)) (bumpCompleted ms m0),
              events := [.persistStatus .processing, .detectorCall,
                .persistStatus .completed] }) := by
  cases hc : env.commitProcessingFails with
  | true =>
    exact Or.inl (run_commitProcessingFails video_id env store0 artifact0 m0 r h hc)
  | false =>
    cases hd : env.detector with
    | error e =>
      cases hcf : env.commitFailedFails with
      | false =>
        exact Or.inr (Or.inl ⟨e,
          run_detectorError video_id env store0 artifact0 m0 r e h hc hd hcf⟩)
      | true =>
        exact Or.inr (Or.inr (Or.inl
          (run_detectorErrorPersistFails video_id env store0 artifact0 m0 r e h hc hd hcf)))
    | ok p =>
      obtain ⟨hm, ms⟩ := p
      cases hres : env.commitResultFails with
      | false =>
        exact Or.inr (Or.inr (Or.inr ⟨hm, ms,
          run_success video_id env store0 artifact0 m0 r hm ms h hc hd hres⟩))
      | true =>
        exact Or.inr (Or.inr (Or.inl
          (run_resultCommitFails video_id env store0 artifact0 m0 r hm ms h hc hd hres)))

/-! ## Claim theorems -/

/-- Claim C4: for every input — record id present or absent, detector
succeeding or raising, primary or secondary persistence failing, file
deletion failing, queue-count query failing — `process_video_analysis`
returns normally (`.ok`) and never propagates an exception to its
caller. -/
theorem run_never_raises (video_id : Nat) (env : Env)
    (store0 : List VideoAnalysis) (artifact0 : Bool) (m0 : Metrics) :
    ∃ out, process_video_analysis video_id env store0 artifact0 m0 = .ok out := by
  cases h : queryById store0 video_id with
  | none => exact ⟨_, run_notFound video_id env store0 artifact0 m0 h⟩
  | some r =>
    rcases run_found_cases video_id env store0 artifact0 m0 r h with
      h4 | ⟨e, h4⟩ | h4 | ⟨hm, ms, h4⟩ <;> exact ⟨_, h4⟩

/-- Claim C3: for every run — detector success, detector failure, or
missing record — provided the `os.remove` call itself does not raise,
the artifact file does not exist once the run returns. -/
theorem run_artifact_removed (video_id : Nat) (env : Env)
    (store0 : List VideoAnalysis) (artifact0 : Bool) (m0 : Metrics)
    (hrm : env.removeFails = false) :
    ∃ out, process_video_analysis video_id env store0 artifact0 m0 = .ok out ∧
      out.artifactExists = false := by
  cases h : queryById store0 video_id with
  | none => exact ⟨_, run_notFound video_id env store0 artifact0 m0 h, by simp [hrm]⟩
  | some r =>
    rcases run_found_cases video_id env store0 artifact0 m0 r h with
      h4 | ⟨e, h4⟩ | h4 | ⟨hm, ms, h4⟩ <;> exact ⟨_, h4, by simp [hrm]⟩

/-- Witness for C3 at a concrete input. -/
theorem run_artifact_removed_witness :
    ∃ out, process_video_analysis 1 happyEnv [sampleRecord] true zeroMetrics =
        .ok out ∧ out.artifactExists = false :=
  run_artifact_removed 1 happyEnv [sampleRecord] true zeroMetrics rfl

/-- Claim C5: a run on an id absent from the store returns normally,
creates no record (the store is unchanged), increments neither the
processed counters nor the error counter, records no duration
observation, performs no commit and no detector call; artifact deletion
and the queue-depth gauge update are its only side effects. -/
theorem run_missing_record_tolerant (video_id : Nat) (env : Env)
    (store0 : List VideoAnalysis) (artifact0 : Bool) (m0 : Metrics)
    (h : queryById store0 video_id = none) :
    ∃ out, process_video_analysis video_id env store0 artifact0 m0 = .ok out ∧
      out.store = store0 ∧
      out.metrics.processedCompleted = m0.processedCompleted ∧
      out.metrics.processedFailed = m0.processedFailed ∧
      out.metrics.errorsTotal = m0.errorsTotal ∧
      out.metrics.durations = m0.durations ∧
      out.events = [] ∧
      (env.removeFails = false → out.artifactExists = false) ∧
      (env.countFails = false → out.metrics.queueGauge = queueCount store0) := by
  refine ⟨_, run_notFound video_id env store0 artifact0 m0 h, rfl, ?_, ?_, ?_, ?_, rfl,
    fun hrm => by simp [hrm], fun hcn => by simp [hcn, setGauge]⟩ <;>
    cases hcn : env.countFails <;> simp [hcn, setGauge]

/-- Witness for C5 at a concrete input. -/
theorem run_missing_record_tolerant_witness :
    ∃ out, process_video_analysis 99 happyEnv [sampleRecord] true zeroMetrics =
        .ok out ∧
      out.store = [sampleRecord] ∧
      out.metrics.processedCompleted = zeroMetrics.processedCompleted ∧
      out.metrics.processedFailed = zeroMetrics.processedFailed ∧
      out.metrics.errorsTotal = zeroMetrics.errorsTotal ∧
      out.metrics.durations = zeroMetrics.durations ∧
      out.events = [] ∧
      (happyEnv.removeFails = false → out.artifactExists = false) ∧
      (happyEnv.countFails = false →
        out.metrics.queueGauge = queueCount [sampleRecord]) :=
  run_missing_record_tolerant 99 happyEnv [sampleRecord] true zeroMetrics (by decide)

/-- Claim C6: whenever the detector is invoked during a run, the
`PROCESSING` status has already been committed: the event log begins
with the `PROCESSING` persist followed immediately by the detector
call.  (A `persistStatus` event is emitted exactly at a successful
`db.commit()`, so a concurrent lookup can never observe `PENDING` once
the detector is running.) -/
theorem run_processing_persisted_before_detector (video_id : Nat) (env : Env)
    (store0 : List VideoAnalysis) (artifact0 : Bool) (m0 : Metrics) :
    ∃ out, process_video_analysis video_id env store0 artifact0 m0 = .ok out ∧
      (Ev.detectorCall ∈ out.events →
        ∃ rest, out.events =
          Ev.persistStatus .processing :: Ev.detectorCall :: rest) := by
  cases h : queryById store0 video_id with
  | none =>
    exact ⟨_, run_notFound video_id env store0 artifact0 m0 h,
      by intro hmem; simp at hmem⟩
  | some r =>
    rcases run_found_cases video_id env store0 artifact0 m0 r h with
      h4 | ⟨e, h4⟩ | h4 | ⟨hm, ms, h4⟩
    · exact ⟨_, h4, by intro hmem; simp at hmem⟩
    · exact ⟨_, h4, fun _ => ⟨[Ev.persistStatus .failed], rfl⟩⟩
    · exact ⟨_, h4, fun _ => ⟨[], rfl⟩⟩
    · exact ⟨_, h4, fun _ => ⟨[Ev.persistStatus .completed], rfl⟩⟩

/-- Witness for C6 at a concrete input. -/
theorem run_processing_persisted_before_detector_witness :
    ∃ out, process_video_analysis 1 happyEnv [sampleRecord] true zeroMetrics =
        .ok out ∧
      (Ev.detectorCall ∈ out.events →
        ∃ rest, out.events =
          Ev.persistStatus .processing :: Ev.detectorCall :: rest) :=
  run_processing_persisted_before_detector 1 happyEnv [sampleRecord] true zeroMetrics

/-- Claim C1: for a record that enters the run with status `pending`,
the sequence of persisted status values over the run is one of
`[pending]`, `[pending, processing]`, `[pending, processing, completed]`
or `[pending, processing, failed]` — each a prefix of the two allowed
chains, so the run never skips `processing` on the way to a terminal
state and never moves the record back to an earlier state in the
ordering `pending < processing < {completed, failed}`. -/
theorem run_status_trace_monotone (video_id : Nat) (env : Env)
    (store0 : List VideoAnalysis) (artifact0 : Bool) (m0 : Metrics)
    (r : VideoAnalysis) (h : queryById store0 video_id = some r)
    (hp : r.status = .pending) :
    ∃ out, process_video_analysis video_id env store0 artifact0 m0 = .ok out ∧
      (statusTrace r.status out.events = [.pending] ∨
       statusTrace r.status out.events = [.pending, .processing] ∨
       statusTrace r.status out.events = [.pending, .processing, .completed] ∨
       statusTrace r.status out.events = [.pending, .processing, .failed]) := by
  rcases run_found_cases video_id env store0 artifact0 m0 r h with
    h4 | ⟨e, h4⟩ | h4 | ⟨hm, ms, h4⟩
  · exact ⟨_, h4, Or.inl (by simp [statusTrace, hp])⟩
  · exact ⟨_, h4, Or.inr (Or.inr (Or.inr (by simp [statusTrace, hp])))⟩
  · exact ⟨_, h4, Or.inr (Or.inl (by simp [statusTrace, hp]))⟩
  · exact ⟨_, h4, Or.inr (Or.inr (Or.inl (by simp [statusTrace, hp])))⟩

/-- Witness for C1 at a concrete input. -/
theorem run_status_trace_monotone_witness :
    ∃ out, process_video_analysis 1 happyEnv [sampleRecord] true zeroMetrics =
        .ok out ∧
      (statusTrace sampleRecord.status out.events = [.pending] ∨
       statusTrace sampleRecord.status out.events = [.pending, .processing] ∨
       statusTrace sampleRecord.status out.events =
         [.pending, .processing, .completed] ∨
       statusTrace sampleRecord.status out.events =
         [.pending, .processing, .failed]) :=
  run_status_trace_monotone 1 happyEnv [sampleRecord] true zeroMetrics sampleRecord
    (by decide) (by decide)

/-- Claim C2: for a record that enters the run freshly created (status
`pending`, optional fields absent), if its status is terminal after the
run then exactly one of {`has_motion` and `processing_duration_ms` set}
or {`error_message` set} holds — never both, never neither. -/
theorem run_terminal_exclusive (video_id : Nat) (env : Env)
    (store0 : List VideoAnalysis) (artifact0 : Bool) (m0 : Metrics)
    (r : VideoAnalysis) (h : queryById store0 video_id = some r)
    (hp : r.status = .pending) (h1 : r.has_motion = none)
    (h2 : r.processing_duration_ms = none) (h3 : r.error_message = none) :
    ∃ out, process_video_analysis video_id env store0 artifact0 m0 = .ok out ∧
      ∀ s, queryById out.store video_id = some s →
        (s.status = .completed ∨ s.status = .failed) →
        (((s.has_motion.isSome ∧ s.processing_duration_ms.isSome) ∧
            s.error_message = none) ∨
         (s.error_message.isSome ∧ s.has_motion = none ∧
            s.processing_duration_ms = none)) := by
  have hq1 : ∀ f : VideoAnalysis → VideoAnalysis, (∀ x, (f x).id = x.id) →
      queryById (updateRecord store0 video_id f) video_id = some (f r) := by
    intro f hf
    rw [queryById_updateRecord store0 video_id f hf, h]
    rfl
  rcases run_found_cases video_id env store0 artifact0 m0 r h with
    h4 | ⟨e, h4⟩ | h4 | ⟨hm, ms, h4⟩
  · refine ⟨_, h4, ?_⟩
    intro s hs hterm
    dsimp only at hs
    rw [h] at hs
    injection hs with hs
    subst hs
    rw [hp] at hterm
    rcases hterm with h5 | h5 <;> exact absurd h5 (by decide)
  · refine ⟨_, h4, ?_⟩
    intro s hs _
    dsimp only at hs
    rw [show queryById (updateRecord (updateRecord store0 video_id setProcessing)
        video_id (setFailed e)) video_id = some (setFailed e (setProcessing r)) by
      rw [queryById_updateRecord (updateRecord store0 video_id setProcessing)
          video_id (setFailed e) (fun _ => rfl),
        hq1 setProcessing (fun _ => rfl)]
      rfl] at hs
    injection hs with hs
    subst hs
    exact Or.inr (by simp [setFailed, setProcessing, h1, h2])
  · refine ⟨_, h4, ?_⟩
    intro s hs hterm
    dsimp only at hs
    rw [hq1 setProcessing (fun _ => rfl)] at hs
    injection hs with hs
    subst hs
    rcases hterm with h5 | h5 <;>
      exact absurd h5 (by simp [setProcessing])
  · refine ⟨_, h4, ?_⟩
    intro s hs _
    dsimp only at hs
    rw [show queryById (updateRecord (updateRecord store0 video_id setProcessing)
        video_id (setCompleted hm ms env.now)) video_id =
        some (setCompleted hm ms env.now (setProcessing r)) by
      rw [queryById_updateRecord (updateRecord store0 video_id setProcessing)
          video_id (setCompleted hm ms env.now) (fun _ => rfl),
        hq1 setProcessing (fun _ => rfl)]
      rfl] at hs
    injection hs with hs
    subst hs
    exact Or.inl (by simp [setCompleted, setProcessing, h3])

/-- Witness for C2 at a concrete input. -/
theorem run_terminal_exclusive_witness :
    ∃ out, process_video_analysis 1 happyEnv [sampleRecord] true zeroMetrics =
        .ok out ∧
      ∀ s, queryById out.store 1 = some s →
        (s.status = .completed ∨ s.status = .failed) →
        (((s.has_motion.isSome ∧ s.processing_duration_ms.isSome) ∧
            s.error_message = none) ∨
         (s.error_message.isSome ∧ s.has_motion = none ∧
            s.processing_duration_ms = none)) :=
  run_terminal_exclusive 1 happyEnv [sampleRecord] true zeroMetrics sampleRecord
    (by decide) (by decide) (by decide) (by decide) (by decide)

/-- Counterexample to C8 as stated: a run whose detector raises drives
the record to the terminal state `failed`, yet `analysis_time` is never
set — the code only assigns `analysis_time` on the success path
(`app/main.py` line 77), not in the failure branch (lines 88–95). -/
theorem analysis_time_claim_counterexample :
    ∃ out, process_video_analysis 1 { happyEnv with detector := .error "boom" }
        [sampleRecord] true zeroMetrics = .ok out ∧
      ∃ s, queryById out.store 1 = some s ∧
        s.status = .failed ∧ s.analysis_time = none := by
  refine ⟨_, rfl, ?_⟩
  decide

/-- Claim C8 (amended): for a record that enters the run with status
`pending` and `analysis_time` absent, `analysis_time` is set (exactly
once) if and only if the run drives the record to `completed`, in which
case it equals the completion clock reading; a run that ends in
`failed` leaves `analysis_time` absent.  Once set, `analysis_time` is
`>= upload_time`, granted a monotone clock (`upload_time ≤ env.now`). -/
theorem run_analysis_time (video_id : Nat) (env : Env)
    (store0 : List VideoAnalysis) (artifact0 : Bool) (m0 : Metrics)
    (r : VideoAnalysis) (h : queryById store0 video_id = some r)
    (hp : r.status = .pending) (ha : r.analysis_time = none)
    (hu : r.upload_time ≤ env.now) :
    ∃ out, process_video_analysis video_id env store0 artifact0 m0 = .ok out ∧
      ∃ s, queryById out.store video_id = some s ∧
        (s.status = .completed → s.analysis_time = some env.now) ∧
        (s.status ≠ .completed → s.analysis_time = none) ∧
        (∀ t, s.analysis_time = some t → s.upload_time ≤ t) := by
  have hq1 : ∀ f : VideoAnalysis → VideoAnalysis, (∀ x, (f x).id = x.id) →
      queryById (updateRecord store0 video_id f) video_id = some (f r) := by
    intro f hf
    rw [queryById_updateRecord store0 video_id f hf, h]
    rfl
  rcases run_found_cases video_id env store0 artifact0 m0 r h with
    h4 | ⟨e, h4⟩ | h4 | ⟨hm, ms, h4⟩
  · refine ⟨_, h4, r, by dsimp only; exact h, ?_, fun _ => ha, ?_⟩
    · intro hcomp
      rw [hp] at hcomp
      exact absurd hcomp (by decide)
    · intro t ht
      rw [ha] at ht
      exact absurd ht (by simp)
  · refine ⟨_, h4, setFailed e (setProcessing r), ?_, ?_, ?_, ?_⟩
    · dsimp only
      rw [queryById_updateRecord (updateRecord store0 video_id setProcessing)
          video_id (setFailed e) (fun _ => rfl),
        hq1 setProcessing (fun _ => rfl)]
      rfl
    · intro hcomp
      exact absurd hcomp (by simp [setFailed])
    · intro _
      simp [setFailed, setProcessing, ha]
    · intro t ht
      simp [setFailed, setProcessing, ha] at ht
  · refine ⟨_, h4, setProcessing r, ?_, ?_, ?_, ?_⟩
    · dsimp only
      exact hq1 setProcessing (fun _ => rfl)
    · intro hcomp
      exact absurd hcomp (by simp [setProcessing])
    · intro _
      simp [setProcessing, ha]
    · intro t ht
      simp [setProcessing, ha] at ht
  · refine ⟨_, h4, setCompleted hm ms env.now (setProcessing r), ?_, ?_, ?_, ?_⟩
    · dsimp only
      rw [queryById_updateRecord (updateRecord store0 video_id setProcessing)
          video_id (setCompleted hm ms env.now) (fun _ => rfl),
        hq1 setProcessing (fun _ => rfl)]
      rfl
    · intro _
      simp [setCompleted]
    · intro hne
      exact absurd (by simp [setCompleted]) hne
    · intro t ht
      simp only [setCompleted, setProcessing] at ht ⊢
      cases ht
      exact hu

/-- Witness for C8 (amended) at a concrete input. -/
theorem run_analysis_time_witness :
    ∃ out, process_video_analysis 1 happyEnv [sampleRecord] true zeroMetrics =
        .ok out ∧
      ∃ s, queryById out.store 1 = some s ∧
        (s.status = .completed → s.analysis_time = some happyEnv.now) ∧
        (s.status ≠ .completed → s.analysis_time = none) ∧
        (∀ t, s.analysis_time = some t → s.upload_time ≤ t) :=
  run_analysis_time 1 happyEnv [sampleRecord] true zeroMetrics sampleRecord
    (by decide) (by decide) (by decide) (by decide)

/-- Counterexample to C7 as stated: a run whose detector call succeeds
but whose result commit then raises increments the `failed` counter and
the error counter, increments the `completed` counter not at all, and
records no duration observation — the success-path metric calls sit
after the commit (`app/main.py` lines 79–83), so the exception reroutes
accounting to the failure branch. -/
theorem metrics_claim_counterexample :
    ∃ out, process_video_analysis 1 { happyEnv with commitResultFails := true }
        [sampleRecord] true zeroMetrics = .ok out ∧
      ({ happyEnv with commitResultFails := true } : Env).detector =
        .ok (true, 500) ∧
      out.metrics.processedCompleted = 0 ∧
      out.metrics.durations = [] ∧
      out.metrics.processedFailed = 1 ∧
      out.metrics.errorsTotal = 1 := by
  refine ⟨_, rfl, rfl, ?_⟩
  decide

/-- Claim C7 (amended): in a run that reaches the detector, if the
detector call succeeds and the subsequent result commit succeeds, the
`completed` processed-counter is incremented exactly once and exactly
one duration observation equal to `processing_duration_ms / 1000`
seconds is recorded (the `failed` counter and the error counter are
untouched); if the detector call raises, the `failed` processed-counter
and the error counter are each incremented exactly once (the
`completed` counter and the duration histogram are untouched). -/
theorem run_metrics_correlate (video_id : Nat) (env : Env)
    (store0 : List VideoAnalysis) (artifact0 : Bool) (m0 : Metrics)
    (r : VideoAnalysis) (h : queryById store0 video_id = some r)
    (hc : env.commitProcessingFails = false) :
    (∀ hm ms, env.detector = .ok (hm, ms) → env.commitResultFails = false →
      ∃ out, process_video_analysis video_id env store0 artifact0 m0 = .ok out ∧
        out.metrics.processedCompleted = m0.processedCompleted + 1 ∧
        out.metrics.processedFailed = m0.processedFailed ∧
        out.metrics.errorsTotal = m0.errorsTotal ∧
        out.metrics.durations = m0.durations ++ [(ms : ℚ) / 1000]) ∧
    (∀ e, env.detector = .error e →
      ∃ out, process_video_analysis video_id env store0 artifact0 m0 = .ok out ∧
        out.metrics.processedFailed = m0.processedFailed + 1 ∧
        out.metrics.errorsTotal = m0.errorsTotal + 1 ∧
        out.metrics.processedCompleted = m0.processedCompleted ∧
        out.metrics.durations = m0.durations) := by
  constructor
  · intro hm ms hd hres
    refine ⟨_, run_success video_id env store0 artifact0 m0 r hm ms h hc hd hres, ?_⟩
    cases hcn : env.countFails <;> simp [hcn, setGauge, bumpCompleted]
  · intro e hd
    cases hcf : env.commitFailedFails with
    | false =>
      refine ⟨_, run_detectorError video_id env store0 artifact0 m0 r e h hc hd hcf, ?_⟩
      cases hcn : env.countFails <;> simp [hcn, setGauge, bumpFailed]
    | true =>
      refine ⟨_,
        run_detectorErrorPersistFails video_id env store0 artifact0 m0 r e h hc hd hcf, ?_⟩
      simp [bumpFailed]

/-- Witness for C7 (amended) at a concrete input. -/
theorem run_metrics_correlate_witness :
    (∀ hm ms, happyEnv.detector = .ok (hm, ms) →
      happyEnv.commitResultFails = false →
      ∃ out, process_video_analysis 1 happyEnv [sampleRecord] true zeroMetrics =
          .ok out ∧
        out.metrics.processedCompleted = zeroMetrics.processedCompleted + 1 ∧
        out.metrics.processedFailed = zeroMetrics.processedFailed ∧
        out.metrics.errorsTotal = zeroMetrics.errorsTotal ∧
        out.metrics.durations = zeroMetrics.durations ++ [(ms : ℚ) / 1000]) ∧
    (∀ e, happyEnv.detector = .error e →
      ∃ out, process_video_analysis 1 happyEnv [sampleRecord] true zeroMetrics =
          .ok out ∧
        out.metrics.processedFailed = zeroMetrics.processedFailed + 1 ∧
        out.metrics.errorsTotal = zeroMetrics.errorsTotal + 1 ∧
        out.metrics.processedCompleted = zeroMetrics.processedCompleted ∧
        out.metrics.durations = zeroMetrics.durations) :=
  run_metrics_correlate 1 happyEnv [sampleRecord] true zeroMetrics sampleRecord
    (by decide) (by decide)

/-- Counterexample to C9 as stated: when the final queue-count query
raises (its failure is swallowed, `app/main.py` lines 111–117), the
gauge keeps its stale value — here 7 — while the store holds no pending
or processing record, so after the run the gauge does not equal the
pending/processing count. -/
theorem queue_gauge_claim_counterexample :
    ∃ out, process_video_analysis 1 { happyEnv with countFails := true }
        [sampleRecord] true { zeroMetrics with queueGauge := 7 } = .ok out ∧
      out.metrics.queueGauge ≠ queueCount out.store := by
  refine ⟨_, rfl, ?_⟩
  decide

/-- Claim C9 (amended): after every run in which the final queue-count
query succeeds — no commit failure has poisoned the session and the
count itself does not raise — the `videos_in_queue` gauge equals the
number of records with status `pending` or `processing` in the store at
that moment. -/
theorem run_queue_gauge (video_id : Nat) (env : Env)
    (store0 : List VideoAnalysis) (artifact0 : Bool) (m0 : Metrics)
    (hc : env.commitProcessingFails = false)
    (hres : env.commitResultFails = false)
    (hcf : env.commitFailedFails = false)
    (hcn : env.countFails = false) :
    ∃ out, process_video_analysis video_id env store0 artifact0 m0 = .ok out ∧
      out.metrics.queueGauge = queueCount out.store := by
  cases h : queryById store0 video_id with
  | none =>
    refine ⟨_, run_notFound video_id env store0 artifact0 m0 h, ?_⟩
    simp [hcn, setGauge]
  | some r =>
    cases hd : env.detector with
    | error e =>
      refine ⟨_, run_detectorError video_id env store0 artifact0 m0 r e h hc hd hcf, ?_⟩
      simp [hcn, setGauge]
    | ok p =>
      obtain ⟨hm, ms⟩ := p
      refine ⟨_, run_success video_id env store0 artifact0 m0 r hm ms h hc hd hres, ?_⟩
      simp [hcn, setGauge]

/-- Witness for C9 (amended) at a concrete input. -/
theorem run_queue_gauge_witness :
    ∃ out, process_video_analysis 1 happyEnv [sampleRecord] true zeroMetrics =
        .ok out ∧
      out.metrics.queueGauge = queueCount out.store :=
  run_queue_gauge 1 happyEnv [sampleRecord] true zeroMetrics rfl rfl rfl rfl

/-- Claim C10: `detect_motion` fails with an error when the video
cannot be opened or contains no readable frame, and these are its only
failure conditions: whenever opening succeeds and a first frame exists
it returns normally; for a video of exactly one readable frame it
returns `(has_motion = false, duration ≥ 0)` without error. -/
theorem detect_motion_failure_conditions (cfg : VideoAnalyzer) (v : Video)
    (t : Nat) :
    (v.openOk = false → ∃ e, cfg.detect_motion v t = .error e) ∧
    (v.frames = [] → ∃ e, cfg.detect_motion v t = .error e) ∧
    (v.openOk = true → v.frames ≠ [] →
      ∃ b d, cfg.detect_motion v t = .ok (b, d)) ∧
    (∀ f, v.openOk = true → v.frames = [f] →
      cfg.detect_motion v t = .ok (false, t) ∧ 0 ≤ t) := by
  refine ⟨?_, ?_, ?_, ?_⟩
  · intro ho
    exact ⟨"cannot open video file", by simp [VideoAnalyzer.detect_motion, ho]⟩
  · intro hfr
    cases ho : v.openOk
    · exact ⟨"cannot open video file", by simp [VideoAnalyzer.detect_motion, ho]⟩
    · exact ⟨"cannot read first frame of video",
        by simp [VideoAnalyzer.detect_motion, ho, hfr]⟩
  · intro ho hfr
    obtain ⟨f, rest, hv⟩ := List.exists_cons_of_ne_nil hfr
    exact ⟨motionLoop cfg f rest 0 0 false, t,
      by simp [VideoAnalyzer.detect_motion, ho, hv]⟩
  · intro f ho hv
    exact ⟨by simp [VideoAnalyzer.detect_motion, ho, hv, motionLoop], Nat.zero_le t⟩

/-- Witness for C10 at a concrete input: a one-frame video analysed
with the default configuration. -/
theorem detect_motion_failure_conditions_witness :
    VideoAnalyzer.detect_motion {} { openOk := true, frames := [[[0, 0], [0, 0]]] } 5 =
      .ok (false, 5) ∧ 0 ≤ 5 :=
  (detect_motion_failure_conditions {} { openOk := true, frames := [[[0, 0], [0, 0]]] } 5).2.2.2
    [[0, 0], [0, 0]] rfl rfl

end MotionDetector
